import Mathlib

/-!
# Verification of the transmission-remote command-line client

This development gives a shallow embedding, in Lean 4, of the
`transmission-remote` front end of the Transmission BitTorrent client
(the single C++ translation unit in the repository), together with
theorems about the embedded definitions.

Embedding conventions:
* C `int64_t` / `int` values are modelled as `Int`; none of the embedded
  code paths overflow 64 bits on the inputs considered.
* C strings are `String` / `List Char`; a `nullptr` argument is modelled
  by `Option String`.
* libc helpers (`atoi`, `strtol`) are re-implemented for base 10 on the
  relevant inputs.
* The RPC transport (`flush` posting over HTTP with curl) is external
  I/O; it is modelled by appending the request that would be posted to a
  list of sent requests.  A request records its `method`, optional `tag`
  and argument dictionary, exactly the fields the source puts in the
  JSON-RPC envelope.
* `tr_parseNumberRange` and `getEncodedMetainfo` (file loading) are
  external collaborators; the embedding takes them as parameters.
* Floating-point formatting is external; where the source branches on
  data (not on float rounding), values are carried as `Int`/`ℚ` or kept
  symbolic.
-/

/-- The whitespace characters recognised by C `isspace` in the "C" locale. -/
def isSpaceC (c : Char) : Bool :=
  c = ' ' ∨ c = '\t' ∨ c = '\n' ∨ c = '\u000B' ∨ c = '\u000C' ∨ c = '\r'

/-- Value of a non-empty run of decimal digits, read most significant first. -/
def digitsVal (cs : List Char) : Nat :=
  cs.foldl (fun a c => a * 10 + (c.toNat - 48)) 0

/-- libc `atoi` on a character list: skip leading whitespace, optional
sign, then the longest prefix of decimal digits (0 if none). -/
def atoiList (cs : List Char) : Int :=
  let cs := cs.dropWhile isSpaceC
  match cs with
  | '-' :: rest => -(Int.ofNat (digitsVal (rest.takeWhile Char.isDigit)))
  | '+' :: rest => Int.ofNat (digitsVal (rest.takeWhile Char.isDigit))
  | _ => Int.ofNat (digitsVal (cs.takeWhile Char.isDigit))

/-- libc `atoi` on a string. -/
def atoi (s : String) : Int := atoiList s.data

/-- `strtol(arg, &end, 10)` followed by the `*end != '\0'` check done by
`numarg`: the result is `some n` exactly when the whole string is
consumed (note that `strtol` consumes nothing on an empty string, leaving
`end` at the terminating NUL, so `""` parses as `0`). -/
def strtolFull (str : String) : Option Int :=
  let cs := str.data
  let ws := cs.dropWhile isSpaceC
  let signed : Bool × List Char :=
    match ws with
    | '-' :: rest => (true, rest)
    | '+' :: rest => (false, rest)
    | _ => (false, ws)
  let ds := signed.2.takeWhile Char.isDigit
  if ds.isEmpty then
    if cs.isEmpty then some 0 else none
  else if (signed.2.drop ds.length).isEmpty then
    some (if signed.1 then -(Int.ofNat (digitsVal ds)) else Int.ofNat (digitsVal ds))
  else
    none

/-- `numarg`, minus the `exit(EXIT_FAILURE)`: `none` models the process
exiting after "Not a number". -/
def numarg (arg : String) : Option Int := strtolFull arg

/-!
## Dictionary values and RPC requests

`tr_variant` dictionaries are modelled as association lists from the
quark's string name to a value.  `vReal` keeps the raw text whose
conversion (`atof`) is done by libc; `vRange` keeps the raw text handed
to the daemon-side list parser `tr_rpc_parse_list_str`.
-/

/-- A `tr_variant` value as used by this translation unit. -/
inductive Val where
  | vInt (n : Int)
  | vBool (b : Bool)
  | vStr (s : String)
  | vReal (raw : String)
  | vRange (raw : String)
  | vIntList (ns : List Int)
  | vStrList (ss : List String)
  deriving DecidableEq, Repr

/-- One key/value pair of a `tr_variant` dictionary. -/
abbrev KV := String × Val

/-- A JSON-RPC request as assembled by `transmission-remote`:
the `method`, the optional integer `tag`, and the `arguments` dict. -/
structure Req where
  method : String
  tag : Option Int
  args : List KV
  deriving DecidableEq, Repr

/-- `tr_variantListAddInt` on the first list stored under `key`
(creating it as the source's `tr_variantDictFindList`-or-`AddList`
pattern does). -/
def dictAddToIntList (args : List KV) (key : String) (n : Int) : List KV :=
  match args.lookup key with
  | some (Val.vIntList l) => args.map (fun kv => if kv.1 = key then (key, Val.vIntList (l ++ [n])) else kv)
  | _ => args ++ [(key, Val.vIntList [n])]

/-- `tr_variantListAddStr` on the first list stored under `key`. -/
def dictAddToStrList (args : List KV) (key : String) (s : String) : List KV :=
  match args.lookup key with
  | some (Val.vStrList l) => args.map (fun kv => if kv.1 = key then (key, Val.vStrList (l ++ [s])) else kv)
  | _ => args ++ [(key, Val.vStrList [s])]

/-- `addLabels`: append every comma-separated token of the argument to
the `labels` list (`tr_strvSep` with separator `','`). -/
def addLabels (args : List KV) (commaDelimited : String) : List KV :=
  (commaDelimited.splitOn ",").foldl (fun a l => dictAddToStrList a "labels" l) args

/-- `addFiles`: build the file-index list stored under `key`.  An empty
argument warns and is replaced by `"-1"` (an index no file has); `"all"`
leaves the list empty; anything else goes through `tr_parseNumberRange`
(a parameter here, the parser being an external collaborator). -/
def addFilesVal (parseRange : String → List Int) (arg : String) : Val :=
  let arg := if arg = "" then "-1" else arg
  if arg = "all" then Val.vIntList [] else Val.vIntList (parseRange arg)

/-!
## `addTime` (alternate-speed schedule times)
-/

/-- The `hh` part of a four-character schedule argument: `atoi` of its
first two characters. -/
def timeHour (a : String) : Int := atoiList (a.data.take 2)

/-- The `mm` part of a four-character schedule argument: `atoi` of its
last two characters. -/
def timeMin (a : String) : Int := atoiList (a.data.drop 2)

/-- `addTime`: the minutes-after-midnight value added to the request
dictionary, or `none` when the error message is printed instead and
nothing is sent. -/
def addTimeVal (arg : Option String) : Option Int :=
  match arg with
  | some a =>
    if a.length = 4 then
      let hour := timeHour a
      let min := timeMin a
      if 0 ≤ hour ∧ hour < 24 ∧ 0 ≤ min ∧ min < 60 then some (min + hour * 60) else none
    else none
  | none => none

/-!
## `addDays` (alternate-speed schedule days)

The argument string is parsed by the external `tr_parseNumberRange`;
`daysMask` models the loop over the parsed numbers.
-/

/-- The bit a listed day contributes to: day 7 wraps to bit 0 (Sunday). -/
def dayBit (day : Int) : Nat := if day = 7 then 0 else day.toNat

/-- The loop body of `addDays`: out-of-range numbers are skipped, day 7
becomes day 0, and every kept day sets its bit. -/
def daysMask (parsed : List Int) : Nat :=
  parsed.foldl (fun acc day => if day < 0 ∨ 7 < day then acc else acc ||| (1 <<< dayBit day)) 0

/-- `addDays`: the bit mask added to the request dictionary, or `none`
when the mask is zero and the error message is printed instead. -/
def addDaysVal (parsed : List Int) : Option Nat :=
  let days := daysMask parsed
  if days ≠ 0 then some days else none

/-!
## `strlratio` (ratio formatting)
-/

/-- `TR_RATIO_NA` from `transmission.h`. -/
def TR_RATIO_NA : ℚ := -1

/-- `TR_RATIO_INF` from `transmission.h`. -/
def TR_RATIO_INF : ℚ := -2

/-- The `ratio` double computed by `strlratio` before formatting:
the quotient is taken only under the `denominator != 0` guard. -/
def strlratio (numerator denominator : Int) : ℚ :=
  if denominator ≠ 0 then (numerator : ℚ) / (denominator : ℚ)
  else if numerator ≠ 0 then TR_RATIO_INF
  else TR_RATIO_NA

/-!
## `addIdArg` (the `ids` argument of torrent requests)
-/

/-- The id string `addIdArg` ends up using: the current-torrent string,
else the fallback, else `"-1"` (with a "No torrent specified!" warning). -/
def effectiveId (idStr fallback : String) : String :=
  let e := if idStr = "" then fallback else idStr
  if e = "" then "-1" else e

/-- True when `addIdArg` prints the "No torrent specified!" warning. -/
def addIdArgWarns (idStr fallback : String) : Bool :=
  idStr = "" ∧ fallback = ""

/-- The `isNum` scan of `addIdArg`: every character is a decimal digit
(an empty string scans as numeric, as in the source's loop). -/
def strAllDigits (s : String) : Bool := s.data.all Char.isDigit

/-- `strchr(s, c) != nullptr`. -/
def strHasChar (s : String) (c : Char) : Bool := s.data.contains c

/-- `addIdArg`: the key/value pairs added to a request's argument
dictionary.  `"active"` is sent as the literal `"recently-active"`;
`"all"` sends no `ids` filter; an all-digit string or one containing
`','` or `'-'` is handed to the daemon list parser (`vRange`); anything
else is sent as a torrent hash string. -/
def addIdArg (idStr fallback : String) : List KV :=
  let e := effectiveId idStr fallback
  if e = "active" then [("ids", Val.vStr "recently-active")]
  else if e = "all" then []
  else if strAllDigits e ∨ strHasChar e ',' ∨ strHasChar e '-' then [("ids", Val.vRange e)]
  else [("ids", Val.vStr e)]

example : addIdArg "" "" = [("ids", Val.vRange "-1")] := by decide
example : addIdArg "active" "" = [("ids", Val.vStr "recently-active")] := by decide
example : addIdArg "" "all" = [] := by decide
example : addIdArg "3,5" "" = [("ids", Val.vRange "3,5")] := by decide
example : addIdArg "deadbeef" "" = [("ids", Val.vStr "deadbeef")] := by decide
example : addTimeVal (some "1234") = some 754 := by decide
example : addTimeVal (some "aa11") = some 11 := by decide
example : addTimeVal (some "2400") = none := by decide
example : addDaysVal [1, 7, 9] = some 3 := by decide
example : strlratio 3 0 = TR_RATIO_INF := by norm_num [strlratio, TR_RATIO_INF]

/-!
## Torrent status rendering (`getStatusString`)

A torrent dict received from the daemon is modelled by the optional
fields this function reads (`tr_variantDictFind*` returning `false` is
`none`).  The `tr_torrent_activity` enum values are those of
`transmission.h`.
-/

def TR_STATUS_STOPPED : Int := 0
def TR_STATUS_CHECK_WAIT : Int := 1
def TR_STATUS_CHECK : Int := 2
def TR_STATUS_DOWNLOAD_WAIT : Int := 3
def TR_STATUS_DOWNLOAD : Int := 4
def TR_STATUS_SEED_WAIT : Int := 5
def TR_STATUS_SEED : Int := 6

/-- The fields of a torrent dict read by the rendering code under
verification.  `recheckProgress` is a double in the source; it is
carried as `ℚ` (its exact decimal value per the JSON). -/
structure TorrentView where
  status : Option Int := none
  isFinished : Option Bool := none
  recheckProgress : Option ℚ := none
  peersGettingFromUs : Option Int := none
  peersSendingToUs : Option Int := none
  leftUntilDone : Option Int := none
  sizeWhenDone : Option Int := none
  deriving DecidableEq, Repr

/-- `getStatusString`: the status column text.  The variables the source
leaves at their `= 0` initialisers when a find fails are modelled with
`Option.getD 0`; `"%.0f"` applied to `floor(percent * 100.0)` prints the
integer `⌊percent * 100⌋`. -/
def getStatusString (t : TorrentView) : String :=
  match t.status with
  | none => ""
  | some status =>
    if status = TR_STATUS_DOWNLOAD_WAIT ∨ status = TR_STATUS_SEED_WAIT then
      "Queued"
    else if status = TR_STATUS_STOPPED then
      if t.isFinished = some true then "Finished" else "Stopped"
    else if status = TR_STATUS_CHECK_WAIT ∨ status = TR_STATUS_CHECK then
      let str := if status = TR_STATUS_CHECK_WAIT then "Will Verify" else "Verifying"
      match t.recheckProgress with
      | some percent => str ++ " (" ++ toString ⌊percent * 100⌋ ++ "%)"
      | none => str
    else if status = TR_STATUS_DOWNLOAD ∨ status = TR_STATUS_SEED then
      let fromUs := t.peersGettingFromUs.getD 0
      let toUs := t.peersSendingToUs.getD 0
      if fromUs ≠ 0 ∧ toUs ≠ 0 then "Up & Down"
      else if toUs ≠ 0 then "Downloading"
      else if fromUs ≠ 0 then
        if t.leftUntilDone.getD 0 > 0 then "Uploading" else "Seeding"
      else "Idle"
    else
      "Unknown"

/-!
## Completion percentage (`printTorrentList` / `printDetails`)
-/

/-- The `Done` column cell of the torrent list: either the operands of
the evaluated expression `100.0 * (sizeWhenDone - leftUntilDone) /
sizeWhenDone`, or the literal `"n/a"`. -/
inductive DoneCell where
  | percent (sizeWhenDone leftUntilDone : Int)
  | na
  deriving DecidableEq, Repr

/-- `printTorrentList`'s `doneStr` computation: the division is guarded
by `sizeWhenDone != 0`. -/
def listDoneCell (sizeWhenDone leftUntilDone : Int) : DoneCell :=
  if sizeWhenDone ≠ 0 then DoneCell.percent sizeWhenDone leftUntilDone else DoneCell.na

/-- `printDetails`'s "Percent Done" line: when both `sizeWhenDone` and
`leftUntilDone` are found, the line is printed and the expression
`100.0 * (i - j) / i` is evaluated with these operands (there is no
zero guard); otherwise nothing is printed. -/
def detailsPercentLine (t : TorrentView) : Option (Int × Int) :=
  match t.sizeWhenDone, t.leftUntilDone with
  | some i, some j => some (i, j)
  | _, _ => none

/-!
## Session speed limits (`printSession`, LIMITS section)
-/

/-- An effective speed limit as printed: a value handed to
`tr_formatter_speed_KBps`, or the literal `"Unlimited"`. -/
inductive EffLimit where
  | limited (kbps : Int)
  | unlimited
  deriving DecidableEq, Repr

/-- The session fields read by the LIMITS section of `printSession`. -/
structure SessionView where
  altSpeedDown : Option Int := none
  altSpeedEnabled : Option Bool := none
  altSpeedTimeBegin : Option Int := none
  altSpeedTimeEnabled : Option Bool := none
  altSpeedTimeEnd : Option Int := none
  altSpeedTimeDay : Option Int := none
  altSpeedUp : Option Int := none
  peerLimitGlobal : Option Int := none
  speedLimitDown : Option Int := none
  speedLimitDownEnabled : Option Bool := none
  speedLimitUp : Option Int := none
  speedLimitUpEnabled : Option Bool := none
  seedRatioLimit : Option ℚ := none
  seedRatioLimited : Option Bool := none
  deriving DecidableEq, Repr

/-- The branch structure shared by `effective_up_limit` and
`effective_down_limit` in `printSession`: the alternate limit wins
whenever alternate limits are enabled, else the normal limit when
enabled, else unlimited. -/
def effectiveLimit (altEnabled : Bool) (altVal : Int) (limitEnabled : Bool) (limitVal : Int) :
    EffLimit :=
  if altEnabled then EffLimit.limited altVal
  else if limitEnabled then EffLimit.limited limitVal
  else EffLimit.unlimited

/-- The LIMITS section of `printSession`: printed (and its effective
up/down limits computed) only when every field of the `&&` chain is
present in the response. -/
def printSessionLimits (v : SessionView) : Option (EffLimit × EffLimit) := do
  let altDown ← v.altSpeedDown
  let altEnabled ← v.altSpeedEnabled
  let _ ← v.altSpeedTimeBegin
  let _ ← v.altSpeedTimeEnabled
  let _ ← v.altSpeedTimeEnd
  let _ ← v.altSpeedTimeDay
  let altUp ← v.altSpeedUp
  let _ ← v.peerLimitGlobal
  let downLimit ← v.speedLimitDown
  let downEnabled ← v.speedLimitDownEnabled
  let upLimit ← v.speedLimitUp
  let upEnabled ← v.speedLimitUpEnabled
  let _ ← v.seedRatioLimit
  let _ ← v.seedRatioLimited
  pure (effectiveLimit altEnabled altUp upEnabled upLimit,
        effectiveLimit altEnabled altDown downEnabled downLimit)

/-!
## `getOptMode` and the `processArgs` state machine

Command-line options arrive as the `(value, optarg)` pairs produced by
`tr_getopt` (an external collaborator); the loop body of `processArgs`
is the step function below.  `flush` posts a request over HTTP and
frees the pending variant: it is modelled by appending the request to
the `sent` list.  `exit()` is modelled by the `halted` flag, which
freezes the state.
-/

def optCode (ch : Char) : Int := Int.ofNat ch.toNat

def TR_OPT_DONE : Int := 0
def TR_OPT_ERR : Int := -1
def TR_OPT_UNK : Int := -2

def MODE_TORRENT_START : Nat := 1 <<< 0
def MODE_TORRENT_STOP : Nat := 1 <<< 1
def MODE_TORRENT_VERIFY : Nat := 1 <<< 2
def MODE_TORRENT_REANNOUNCE : Nat := 1 <<< 3
def MODE_TORRENT_SET : Nat := 1 <<< 4
def MODE_TORRENT_GET : Nat := 1 <<< 5
def MODE_TORRENT_ADD : Nat := 1 <<< 6
def MODE_TORRENT_REMOVE : Nat := 1 <<< 7
def MODE_TORRENT_SET_LOCATION : Nat := 1 <<< 8
def MODE_SESSION_SET : Nat := 1 <<< 9
def MODE_SESSION_GET : Nat := 1 <<< 10
def MODE_SESSION_STATS : Nat := 1 <<< 11
def MODE_SESSION_CLOSE : Nat := 1 <<< 12
def MODE_BLOCKLIST_UPDATE : Nat := 1 <<< 13
def MODE_PORT_TEST : Nat := 1 <<< 14

def TAG_SESSION : Int := 0
def TAG_STATS : Int := 1
def TAG_DETAILS : Int := 2
def TAG_FILES : Int := 3
def TAG_LIST : Int := 4
def TAG_PEERS : Int := 5
def TAG_PIECES : Int := 6
def TAG_PORTTEST : Int := 7
def TAG_TORRENT_ADD : Int := 8
def TAG_TRACKERS : Int := 9

/-- `getOptMode`: classify an option value into the step-mode bits, one
branch per `case` group of the source's `switch`. -/
def getOptMode (val : Int) : Nat :=
  if val = TR_OPT_ERR ∨ val = TR_OPT_UNK ∨ val = optCode 'a' ∨ val = optCode 'b' ∨
      val = optCode 'n' ∨ val = 810 ∨ val = optCode 'N' ∨ val = 820 ∨ val = optCode 't' ∨
      val = optCode 'V' then
    0
  else if val = optCode 'c' ∨ val = optCode 'C' ∨ val = optCode 'e' ∨ val = optCode 'm' ∨
      val = optCode 'M' ∨ val = optCode 'o' ∨ val = optCode 'O' ∨ val = optCode 'p' ∨
      val = optCode 'P' ∨ val = optCode 'x' ∨ val = optCode 'X' ∨ val = optCode 'y' ∨
      val = optCode 'Y' ∨ val = 800 ∨ val = 801 ∨ val = 802 ∨ val = 803 ∨ val = 830 ∨
      val = 831 ∨ val = 970 ∨ val = 971 ∨ val = 972 ∨ val = 973 ∨ val = 974 ∨ val = 975 ∨
      val = 976 ∨ val = 977 ∨ val = 978 ∨ val = 910 ∨ val = 911 ∨ val = 912 ∨ val = 953 ∨
      val = 954 ∨ val = 990 ∨ val = 991 ∨ val = 992 ∨ val = 993 then
    MODE_SESSION_SET
  else if val = 712 ∨ val = 950 ∨ val = 951 ∨ val = 952 ∨ val = 984 ∨ val = 985 then
    MODE_TORRENT_SET
  else if val = 920 then
    MODE_SESSION_GET
  else if val = optCode 'g' ∨ val = optCode 'G' ∨ val = optCode 'L' ∨ val = 700 ∨ val = 701 ∨
      val = 702 ∨ val = 710 ∨ val = 900 ∨ val = 901 ∨ val = 902 then
    MODE_TORRENT_SET ||| MODE_TORRENT_ADD
  else if val = 961 then
    MODE_TORRENT_SET_LOCATION ||| MODE_TORRENT_ADD
  else if val = optCode 'i' ∨ val = optCode 'l' ∨ val = 940 ∨ val = 941 ∨ val = 942 ∨
      val = 943 then
    MODE_TORRENT_GET
  else if val = optCode 'd' ∨ val = optCode 'D' ∨ val = optCode 'u' ∨ val = optCode 'U' ∨
      val = 930 then
    MODE_SESSION_SET ||| MODE_TORRENT_SET
  else if val = optCode 's' then
    MODE_TORRENT_START ||| MODE_TORRENT_ADD
  else if val = optCode 'S' then
    MODE_TORRENT_STOP ||| MODE_TORRENT_ADD
  else if val = optCode 'w' then
    MODE_SESSION_SET ||| MODE_TORRENT_ADD
  else if val = 850 then
    MODE_SESSION_CLOSE
  else if val = 963 then
    MODE_BLOCKLIST_UPDATE
  else if val = 921 then
    MODE_SESSION_STATS
  else if val = optCode 'v' then
    MODE_TORRENT_VERIFY
  else if val = 600 then
    MODE_TORRENT_REANNOUNCE
  else if val = 962 then
    MODE_PORT_TEST
  else if val = optCode 'r' ∨ val = 840 then
    MODE_TORRENT_REMOVE
  else if val = 960 then
    MODE_TORRENT_SET_LOCATION
  else
    0

/-- The torrent-get field list of `-f` / `--files`. -/
def files_keys : List String := ["files", "name", "priorities", "wanted"]

/-- The torrent-get field list of `-i` / `--info`. -/
def details_keys : List String :=
  ["activityDate", "addedDate", "bandwidthPriority", "comment", "corruptEver", "creator",
   "dateCreated", "desiredAvailable", "doneDate", "downloadDir", "downloadedEver",
   "downloadLimit", "downloadLimited", "error", "errorString", "eta", "hashString",
   "haveUnchecked", "haveValid", "honorsSessionLimits", "id", "isFinished", "isPrivate",
   "labels", "leftUntilDone", "magnetLink", "name", "peersConnected", "peersGettingFromUs",
   "peersSendingToUs", "peer-limit", "pieceCount", "pieceSize", "rateDownload", "rateUpload",
   "recheckProgress", "secondsDownloading", "secondsSeeding", "seedRatioMode",
   "seedRatioLimit", "sizeWhenDone", "source", "startDate", "status", "totalSize",
   "uploadedEver", "uploadLimit", "uploadLimited", "webseeds", "webseedsSendingToUs"]

/-- The torrent-get field list of `-l` / `--list`. -/
def list_keys : List String :=
  ["error", "errorString", "eta", "id", "isFinished", "leftUntilDone", "name",
   "peersGettingFromUs", "peersSendingToUs", "rateDownload", "rateUpload", "sizeWhenDone",
   "status", "uploadRatio"]

/-- The external collaborators `processArgs` calls out to. -/
structure Ctx where
  /-- `tr_parseNumberRange` (libtransmission). -/
  parseRange : String → List Int
  /-- `getEncodedMetainfo`: `some base64` when the file loads. -/
  metainfo : String → Option String
  /-- `getenv("TR_AUTH")`. -/
  trAuthEnv : Option String

/-- The mutable state of `processArgs` (plus the file-scope globals it
writes): the current-torrent id string, the auth globals, the three
pending requests and the list of already-posted requests. -/
structure PState where
  id : String := ""
  auth : Option String := none
  netrc : Option String := none
  useSSL : Bool := false
  debug : Bool := false
  sset : Option (List KV) := none
  tset : Option (List KV) := none
  tadd : Option (List KV) := none
  sent : List Req := []
  fails : Nat := 0
  halted : Bool := false
  /-- The `break` in the `--find` handler is not inside a `switch`: it
  leaves the option-processing `while` loop (later options are dropped,
  but the end-of-loop flushes still run). -/
  broke : Bool := false
  deriving DecidableEq, Repr

/-- Post the pending `torrent-add` request, if any. -/
def flushTadd (s : PState) : PState :=
  match s.tadd with
  | none => s
  | some args =>
    { s with sent := s.sent ++ [⟨"torrent-add", some TAG_TORRENT_ADD, args⟩], tadd := none }

/-- Post the pending `torrent-set` request, if any; every flush of
`tset` in the source is preceded by `addIdArg(…, id, nullptr)`. -/
def flushTset (s : PState) : PState :=
  match s.tset with
  | none => s
  | some args =>
    { s with sent := s.sent ++ [⟨"torrent-set", none, args ++ addIdArg s.id ""⟩], tset := none }

/-- Post the pending `session-set` request, if any. -/
def flushSset (s : PState) : PState :=
  match s.sset with
  | none => s
  | some args => { s with sent := s.sent ++ [⟨"session-set", none, args⟩], sset := none }

/-- Post a freshly built request. -/
def post (s : PState) (r : Req) : PState := { s with sent := s.sent ++ [r] }

/-- `ensure_sset`/dict-add: append pairs to the pending session-set. -/
def addToSset (s : PState) (kvs : List KV) : PState :=
  { s with sset := some ((s.sset.getD []) ++ kvs) }

/-- `ensure_tset`/dict-add: append pairs to the pending torrent-set. -/
def addToTset (s : PState) (kvs : List KV) : PState :=
  { s with tset := some ((s.tset.getD []) ++ kvs) }

/-- Append pairs to the pending torrent-add's arguments. -/
def addToTadd (s : PState) (kvs : List KV) : PState :=
  match s.tadd with
  | some args => { s with tadd := some (args ++ kvs) }
  | none => s

/-- The loop body of `processArgs` for one option `(c, optarg)`,
dispatching on `getOptMode c` exactly as the source's `if`/`else if`
chain does.  `optarg` is `""` for options that take no argument. -/
def stepGo (ctx : Ctx) (s : PState) (c : Int) (optarg : String) : PState :=
  let mode := getOptMode c
  if mode = 0 then
    -- meta commands
    if c = optCode 'a' then
      let s := flushSset s
      let s := flushTadd s
      let s := flushTset s
      { s with tadd := some [] }
    else if c = optCode 'b' then
      { s with debug := true }
    else if c = optCode 'n' then
      { s with auth := some optarg }
    else if c = 810 then
      match ctx.trAuthEnv with
      | some v => { s with auth := some v }
      | none => { s with halted := true }
    else if c = optCode 'N' then
      { s with netrc := some optarg }
    else if c = 820 then
      { s with useSSL := true }
    else if c = optCode 't' then
      let s := flushTadd s
      let s := flushTset s
      { s with id := optarg }
    else if c = optCode 'V' then
      { s with halted := true }
    else if c = TR_OPT_ERR then
      { s with fails := s.fails + 1 }
    else
      -- TR_OPT_UNK: a bare argument names a torrent file for a pending add
      match s.tadd with
      | some args =>
        let kv :=
          match ctx.metainfo optarg with
          | some enc => ("metainfo", Val.vStr enc)
          | none => ("filename", Val.vStr optarg)
        { s with tadd := some (args ++ [kv]) }
      | none => { s with fails := s.fails + 1 }
  else if mode = MODE_TORRENT_GET then
    let s := flushTset s
    let req : Req :=
      if c = optCode 'i' then
        ⟨"torrent-get", some TAG_DETAILS,
          [("fields", Val.vStrList details_keys)] ++ addIdArg s.id ""⟩
      else if c = optCode 'l' then
        ⟨"torrent-get", some TAG_LIST,
          [("fields", Val.vStrList list_keys)] ++ addIdArg s.id "all"⟩
      else if c = 940 then
        ⟨"torrent-get", some TAG_FILES,
          [("fields", Val.vStrList files_keys)] ++ addIdArg s.id ""⟩
      else if c = 941 then
        ⟨"torrent-get", some TAG_PEERS, [("fields", Val.vStrList ["peers"])] ++ addIdArg s.id ""⟩
      else if c = 942 then
        ⟨"torrent-get", some TAG_PIECES,
          [("fields", Val.vStrList ["pieces", "pieceCount"])] ++ addIdArg s.id ""⟩
      else
        ⟨"torrent-get", some TAG_TRACKERS,
          [("fields", Val.vStrList ["trackerStats"])] ++ addIdArg s.id ""⟩
    post s req
  else if mode = MODE_SESSION_SET then
    if c = 800 then
      addToSset s [("script-torrent-done-filename", Val.vStr optarg),
                   ("script-torrent-done-enabled", Val.vBool true)]
    else if c = 801 then
      addToSset s [("script-torrent-done-enabled", Val.vBool false)]
    else if c = 802 then
      addToSset s [("script-torrent-done-seeding-filename", Val.vStr optarg),
                   ("script-torrent-done-seeding-enabled", Val.vBool true)]
    else if c = 803 then
      addToSset s [("script-torrent-done-seeding-enabled", Val.vBool false)]
    else if c = 970 then
      addToSset s [("alt-speed-enabled", Val.vBool true)]
    else if c = 971 then
      addToSset s [("alt-speed-enabled", Val.vBool false)]
    else if c = 972 then
      match numarg optarg with
      | some n => addToSset s [("alt-speed-down", Val.vInt n)]
      | none => { s with halted := true }
    else if c = 973 then
      match numarg optarg with
      | some n => addToSset s [("alt-speed-up", Val.vInt n)]
      | none => { s with halted := true }
    else if c = 974 then
      addToSset s [("alt-speed-time-enabled", Val.vBool true)]
    else if c = 975 then
      addToSset s [("alt-speed-time-enabled", Val.vBool false)]
    else if c = 976 then
      match addTimeVal (some optarg) with
      | some t => addToSset s [("alt-speed-time-begin", Val.vInt t)]
      | none => addToSset s []
    else if c = 977 then
      match addTimeVal (some optarg) with
      | some t => addToSset s [("alt-speed-time-end", Val.vInt t)]
      | none => addToSset s []
    else if c = 978 then
      match addDaysVal (ctx.parseRange optarg) with
      | some d => addToSset s [("alt-speed-time-day", Val.vInt (Int.ofNat d))]
      | none => addToSset s []
    else if c = optCode 'c' then
      addToSset s [("incomplete-dir", Val.vStr optarg),
                   ("incomplete-dir-enabled", Val.vBool true)]
    else if c = optCode 'C' then
      addToSset s [("incomplete-dir-enabled", Val.vBool false)]
    else if c = optCode 'e' then
      addToSset s [("cache-size-mb", Val.vInt (atoi optarg))]
    else if c = 910 then
      addToSset s [("encryption", Val.vStr "required")]
    else if c = 911 then
      addToSset s [("encryption", Val.vStr "preferred")]
    else if c = 912 then
      addToSset s [("encryption", Val.vStr "tolerated")]
    else if c = optCode 'm' then
      addToSset s [("port-forwarding-enabled", Val.vBool true)]
    else if c = optCode 'M' then
      addToSset s [("port-forwarding-enabled", Val.vBool false)]
    else if c = optCode 'o' then
      addToSset s [("dht-enabled", Val.vBool true)]
    else if c = optCode 'O' then
      addToSset s [("dht-enabled", Val.vBool false)]
    else if c = 830 then
      addToSset s [("utp-enabled", Val.vBool true)]
    else if c = 831 then
      addToSset s [("utp-enabled", Val.vBool false)]
    else if c = optCode 'p' then
      match numarg optarg with
      | some n => addToSset s [("peer-port", Val.vInt n)]
      | none => { s with halted := true }
    else if c = optCode 'P' then
      addToSset s [("peer-port-random-on-start", Val.vBool true)]
    else if c = optCode 'x' then
      addToSset s [("pex-enabled", Val.vBool true)]
    else if c = optCode 'X' then
      addToSset s [("pex-enabled", Val.vBool false)]
    else if c = optCode 'y' then
      addToSset s [("lpd-enabled", Val.vBool true)]
    else if c = optCode 'Y' then
      addToSset s [("lpd-enabled", Val.vBool false)]
    else if c = 953 then
      addToSset s [("seedRatioLimit", Val.vReal optarg), ("seedRatioLimited", Val.vBool true)]
    else if c = 954 then
      addToSset s [("seedRatioLimited", Val.vBool false)]
    else if c = 990 then
      addToSset s [("start-added-torrents", Val.vBool false)]
    else if c = 991 then
      addToSset s [("start-added-torrents", Val.vBool true)]
    else if c = 992 then
      addToSset s [("trash-original-torrent-files", Val.vBool true)]
    else
      -- c = 993
      addToSset s [("trash-original-torrent-files", Val.vBool false)]
  else if mode = MODE_SESSION_SET ||| MODE_TORRENT_SET then
    -- targets the current torrent(s) when one is set, the session otherwise
    if s.id ≠ "" then
      if c = optCode 'd' then
        match numarg optarg with
        | some n => addToTset s [("downloadLimit", Val.vInt n), ("downloadLimited", Val.vBool true)]
        | none => { s with halted := true }
      else if c = optCode 'D' then
        addToTset s [("downloadLimited", Val.vBool false)]
      else if c = optCode 'u' then
        match numarg optarg with
        | some n => addToTset s [("uploadLimit", Val.vInt n), ("uploadLimited", Val.vBool true)]
        | none => { s with halted := true }
      else if c = optCode 'U' then
        addToTset s [("uploadLimited", Val.vBool false)]
      else
        -- c = 930
        addToTset s [("peer-limit", Val.vInt (atoi optarg))]
    else
      if c = optCode 'd' then
        match numarg optarg with
        | some n =>
          addToSset s [("speed-limit-down", Val.vInt n), ("speed-limit-down-enabled", Val.vBool true)]
        | none => { s with halted := true }
      else if c = optCode 'D' then
        addToSset s [("speed-limit-down-enabled", Val.vBool false)]
      else if c = optCode 'u' then
        match numarg optarg with
        | some n =>
          addToSset s [("speed-limit-up", Val.vInt n), ("speed-limit-up-enabled", Val.vBool true)]
        | none => { s with halted := true }
      else if c = optCode 'U' then
        addToSset s [("speed-limit-up-enabled", Val.vBool false)]
      else
        -- c = 930
        addToSset s [("peer-limit-global", Val.vInt (atoi optarg))]
  else if mode = MODE_TORRENT_SET then
    if c = 712 then
      { s with tset := some (dictAddToIntList (s.tset.getD []) "trackerRemove" (atoi optarg)) }
    else if c = 950 then
      addToTset s [("seedRatioLimit", Val.vReal optarg), ("seedRatioMode", Val.vInt 1)]
    else if c = 951 then
      addToTset s [("seedRatioMode", Val.vInt 0)]
    else if c = 952 then
      addToTset s [("seedRatioMode", Val.vInt 2)]
    else if c = 984 then
      addToTset s [("honorsSessionLimits", Val.vBool true)]
    else
      -- c = 985
      addToTset s [("honorsSessionLimits", Val.vBool false)]
  else if mode = MODE_TORRENT_SET ||| MODE_TORRENT_ADD then
    -- goes to the pending add when there is one, else to the torrent-set
    let upd : List KV → List KV :=
      if c = optCode 'g' then
        (· ++ [("files-wanted", addFilesVal ctx.parseRange optarg)])
      else if c = optCode 'G' then
        (· ++ [("files-unwanted", addFilesVal ctx.parseRange optarg)])
      else if c = optCode 'L' then
        (addLabels · optarg)
      else if c = 900 then
        (· ++ [("priority-high", addFilesVal ctx.parseRange optarg)])
      else if c = 901 then
        (· ++ [("priority-normal", addFilesVal ctx.parseRange optarg)])
      else if c = 902 then
        (· ++ [("priority-low", addFilesVal ctx.parseRange optarg)])
      else if c = 700 then
        (· ++ [("bandwidthPriority", Val.vInt 1)])
      else if c = 701 then
        (· ++ [("bandwidthPriority", Val.vInt 0)])
      else if c = 702 then
        (· ++ [("bandwidthPriority", Val.vInt (-1))])
      else
        -- c = 710
        (dictAddToStrList · "trackerAdd" optarg)
    match s.tadd with
    | some args => { s with tadd := some (upd args) }
    | none => { s with tset := some (upd (s.tset.getD [])) }
  else if c = 961 then
    -- "find": tell the daemon where existing data lives
    match s.tadd with
    | some args => { s with tadd := some (args ++ [("download-dir", Val.vStr optarg)]) }
    | none =>
      let s := post s ⟨"torrent-set-location", none,
        [("location", Val.vStr optarg), ("move", Val.vBool false)] ++ addIdArg s.id ""⟩
      { s with broke := true }
  else
    if c = 920 then
      post s ⟨"session-get", some TAG_SESSION, []⟩
    else if c = optCode 's' then
      match s.tadd with
      | some args => { s with tadd := some (args ++ [("paused", Val.vBool false)]) }
      | none => post s ⟨"torrent-start", none, addIdArg s.id ""⟩
    else if c = optCode 'S' then
      match s.tadd with
      | some args => { s with tadd := some (args ++ [("paused", Val.vBool true)]) }
      | none => post s ⟨"torrent-stop", none, addIdArg s.id ""⟩
    else if c = optCode 'w' then
      match s.tadd with
      | some args => { s with tadd := some (args ++ [("download-dir", Val.vStr optarg)]) }
      | none => addToSset s [("download-dir", Val.vStr optarg)]
    else if c = 850 then
      post s ⟨"session-close", none, []⟩
    else if c = 963 then
      post s ⟨"blocklist-update", none, []⟩
    else if c = 921 then
      post s ⟨"session-stats", some TAG_STATS, []⟩
    else if c = 962 then
      post s ⟨"port-test", some TAG_PORTTEST, []⟩
    else if c = 600 then
      let s := flushTset s
      post s ⟨"torrent-reannounce", none, addIdArg s.id ""⟩
    else if c = optCode 'v' then
      let s := flushTset s
      post s ⟨"torrent-verify", none, addIdArg s.id ""⟩
    else if c = optCode 'r' ∨ c = 840 then
      post s ⟨"torrent-remove", none,
        [("delete-local-data", Val.vBool (c = 840))] ++ addIdArg s.id ""⟩
    else if c = 960 then
      post s ⟨"torrent-set-location", none,
        [("location", Val.vStr optarg), ("move", Val.vBool true)] ++ addIdArg s.id ""⟩
    else
      s

/-- One loop iteration: `exit()` freezes the state, and a loop `break`
skips the remaining options. -/
def step (ctx : Ctx) (s : PState) (c : Int) (optarg : String) : PState :=
  if s.halted ∨ s.broke then s else stepGo ctx s c optarg

/-- `processArgs`: fold the option stream through `step`, then post the
pending add / torrent-set / session-set requests (unless the process
exited inside the loop). -/
def processArgs (ctx : Ctx) (opts : List (Int × String)) : PState :=
  let s := opts.foldl (fun s o => step ctx s o.1 o.2) {}
  if s.halted then s else flushSset (flushTset (flushTadd s))

/-- The methods of the requests posted by an invocation, in order. -/
def sentMethods (ctx : Ctx) (opts : List (Int × String)) : List String :=
  (processArgs ctx opts).sent.map Req.method

/-- A trivial environment: no files load, parsing yields nothing,
`TR_AUTH` unset.  Used to evaluate invocations on concrete inputs. -/
def ctx0 : Ctx := ⟨fun _ => [], fun _ => none, none⟩

/-!
## Piece verification and the BitField completion invariant

The piece/block engine itself (BitField, PieceAssembler) is not part of
this repository excerpt — only the remote front end is — so the engine
is modelled from the specification here and the completion invariant is
proved of the model.
-/

/-- Modelled from the spec: `PieceManifest` — piece count, per-piece
block count, and the immutable per-piece expected hash digest
(digests abstracted as `Nat`). -/
structure PieceManifest where
  pieceCount : Nat
  blockCount : Nat → Nat
  expectedHash : Nat → Nat

/-- Modelled from the spec: the torrent-side state the assembler
mutates — the local `BitField` (bit per piece), committed piece bytes in
`Storage`, and the in-progress `PendingPiece` block slots. -/
structure AsmState where
  bits : Nat → Bool
  store : Nat → List Nat
  pending : Nat → Option (List (Option (List Nat)))

/-- Point update of a function. -/
def setAt {α : Type} (f : Nat → α) (i : Nat) (v : α) : Nat → α :=
  fun j => if j = i then v else f j

/-- Modelled from the spec: a fresh torrent has an all-zero BitField,
empty storage and no pending pieces. -/
def initAsm : AsmState := ⟨fun _ => false, fun _ => [], fun _ => none⟩

/-- Empty block slots for a piece. -/
def freshSlots (m : PieceManifest) (p : Nat) : List (Option (List Nat)) :=
  List.replicate (m.blockCount p) none

/-- The concatenated piece bytes once every block slot is filled. -/
def assembleBytes (slots : List (Option (List Nat))) : List Nat :=
  slots.foldr (fun s acc => s.getD [] ++ acc) []

/-- Modelled from the spec: `PieceAssembler.onBlockReceived` — store the
block; when all blocks of the piece are present, hash the concatenated
bytes against `PieceManifest.expectedHash`: on match commit to storage
and set the BitField bit, on mismatch discard every received block of
the piece (the bit stays 0).  Blocks for out-of-range pieces,
out-of-range block indices, or already-complete pieces are rejected
(`UnrequestedBlockError`, non-fatal). -/
def onBlockReceived (hash : List Nat → Nat) (m : PieceManifest) (st : AsmState)
    (p bi : Nat) (data : List Nat) : AsmState :=
  if p < m.pieceCount ∧ bi < m.blockCount p ∧ st.bits p = false then
    let slots := ((st.pending p).getD (freshSlots m p)).set bi (some data)
    if slots.all Option.isSome then
      let bytes := assembleBytes slots
      if hash bytes = m.expectedHash p then
        { bits := setAt st.bits p true
          store := setAt st.store p bytes
          pending := setAt st.pending p none }
      else
        { st with pending := setAt st.pending p none }
    else
      { st with pending := setAt st.pending p (some slots) }
  else
    st

/-- A download run: the assembler state after a sequence of received
blocks `(piece, blockIndex, data)`. -/
def runBlocks (hash : List Nat → Nat) (m : PieceManifest)
    (evs : List (Nat × Nat × List Nat)) : AsmState :=
  evs.foldl (fun st e => onBlockReceived hash m st e.1 e.2.1 e.2.2) initAsm

/-- The completion invariant: a set BitField bit means the committed
bytes of that piece hash to the manifest's expected digest. -/
def BitFieldInv (hash : List Nat → Nat) (m : PieceManifest) (st : AsmState) : Prop :=
  ∀ p, st.bits p = true → hash (st.store p) = m.expectedHash p

/-!
## Claim theorems
-/

/-- C9: the ratio formatter computes the quotient only under the
`denominator != 0` guard; with a zero denominator it yields the
infinity marker when the numerator is nonzero and the not-applicable
marker when both are zero. -/
theorem strlratio_guarded (numerator denominator : Int) :
    (denominator ≠ 0 → strlratio numerator denominator = (numerator : ℚ) / (denominator : ℚ)) ∧
    (denominator = 0 → numerator ≠ 0 → strlratio numerator denominator = TR_RATIO_INF) ∧
    (denominator = 0 → numerator = 0 → strlratio numerator denominator = TR_RATIO_NA) := by
  unfold strlratio
  refine ⟨fun hd => ?_, fun hd hn => ?_, fun hd hn => ?_⟩ <;> simp_all

theorem strlratio_guarded_witness :
    ((2 : Int) ≠ 0 ∧ strlratio 3 2 = (3 : ℚ) / (2 : ℚ)) ∧
    ((0 : Int) = 0 ∧ (3 : Int) ≠ 0 ∧ strlratio 3 0 = TR_RATIO_INF) ∧
    ((0 : Int) = 0 ∧ (0 : Int) = 0 ∧ strlratio 0 0 = TR_RATIO_NA) :=
  ⟨⟨by norm_num, (strlratio_guarded 3 2).1 (by norm_num)⟩,
   ⟨rfl, by norm_num, (strlratio_guarded 3 0).2.1 rfl (by norm_num)⟩,
   ⟨rfl, rfl, (strlratio_guarded 0 0).2.2 rfl rfl⟩⟩

/-- C7 (counterexample): the claim that a schedule value is sent only
for a four-digit `hhmm` argument is false — `atoi` parses the non-digit
pair `"aa"` as 0, so `"aa11"` is accepted (11 minutes past midnight is
sent). -/
theorem addTime_nondigit_accepted :
    ¬ (∀ (a : String) (v : Int), addTimeVal (some a) = some v →
        strAllDigits a = true) := by
  intro h
  have h2 := h "aa11" 11 (by decide)
  exact absurd h2 (by decide)

/-- C7 (amended): a value is sent iff the argument has exactly four
characters and the `atoi`-parsed hour (first two characters) lies in
[0,24) and the `atoi`-parsed minute (last two) lies in [0,60); the value
sent is hour*60 + minute (so four-digit `hhmm` strings behave as the
claim says, but `atoi` also accepts some non-digit pairs, parsing them
as 0).  Every sent value is a valid minutes-after-midnight count. -/
theorem addTime_sends_iff (a : String) (v : Int) :
    (addTimeVal (some a) = some v ↔
      (a.length = 4 ∧ 0 ≤ timeHour a ∧ timeHour a < 24 ∧ 0 ≤ timeMin a ∧ timeMin a < 60 ∧
        v = timeHour a * 60 + timeMin a)) ∧
    (addTimeVal (some a) = some v → 0 ≤ v ∧ v < 1440) := by
  have hmain : addTimeVal (some a) = some v ↔
      (a.length = 4 ∧ 0 ≤ timeHour a ∧ timeHour a < 24 ∧ 0 ≤ timeMin a ∧ timeMin a < 60 ∧
        v = timeHour a * 60 + timeMin a) := by
    unfold addTimeVal
    dsimp only
    by_cases hl : a.length = 4
    · by_cases hr : 0 ≤ timeHour a ∧ timeHour a < 24 ∧ 0 ≤ timeMin a ∧ timeMin a < 60
      · rw [if_pos hl, if_pos hr]
        rw [Option.some_inj]
        constructor
        · intro h
          exact ⟨hl, hr.1, hr.2.1, hr.2.2.1, hr.2.2.2, by omega⟩
        · rintro ⟨-, -, -, -, -, hv⟩
          omega
      · rw [if_pos hl, if_neg hr]
        constructor
        · intro h
          exact absurd h (by simp)
        · rintro ⟨-, h1, h2, h3, h4, -⟩
          exact absurd ⟨h1, h2, h3, h4⟩ hr
    · rw [if_neg hl]
      constructor
      · intro h
        exact absurd h (by simp)
      · rintro ⟨h, -⟩
        exact absurd h hl
  refine ⟨hmain, fun h => ?_⟩
  rcases hmain.mp h with ⟨-, h1, h2, h3, h4, hv⟩
  omega

theorem addTime_sends_iff_witness :
    addTimeVal (some "1234") = some 754 ∧ (0 ≤ (754 : Int) ∧ (754 : Int) < 1440) ∧
    addTimeVal (some "2460") = none :=
  ⟨(addTime_sends_iff "1234" 754).1.mpr
      ⟨by decide, by decide, by decide, by decide, by decide, by decide⟩,
   (addTime_sends_iff "1234" 754).2 (by decide),
   by decide⟩

/-- C6 (counterexample): the details view does evaluate
`100.0 * (sizeWhenDone - leftUntilDone) / sizeWhenDone` with
`sizeWhenDone == 0` — any torrent whose dict carries both fields with
`sizeWhenDone = 0` (e.g. a magnet transfer before metadata arrives)
reaches the division. -/
theorem detailsPercent_divides_by_zero :
    ¬ (∀ (t : TorrentView) (i j : Int), detailsPercentLine t = some (i, j) → i ≠ 0) := by
  intro h
  exact h { sizeWhenDone := some 0, leftUntilDone := some 0 } 0 0 rfl rfl

/-- C6 (amended): the torrent-list view is guarded — it prints `"n/a"`
instead of dividing exactly when `sizeWhenDone` is zero — but the
details view evaluates the percent-done expression whenever both
`sizeWhenDone` and `leftUntilDone` are present, with no zero guard. -/
theorem percentDone_guards (s l : Int) (t : TorrentView) :
    (s = 0 → listDoneCell s l = DoneCell.na) ∧
    (s ≠ 0 → listDoneCell s l = DoneCell.percent s l) ∧
    (∀ i j, detailsPercentLine t = some (i, j) ↔
      (t.sizeWhenDone = some i ∧ t.leftUntilDone = some j)) := by
  refine ⟨fun h => by simp [listDoneCell, h], fun h => by simp [listDoneCell, h], fun i j => ?_⟩
  unfold detailsPercentLine
  cases hs : t.sizeWhenDone <;> cases hl : t.leftUntilDone <;> simp_all

theorem percentDone_guards_witness :
    ((0 : Int) = 0 ∧ listDoneCell 0 7 = DoneCell.na) ∧
    ((3 : Int) ≠ 0 ∧ listDoneCell 3 1 = DoneCell.percent 3 1) :=
  ⟨⟨rfl, (percentDone_guards 0 7 {}).1 rfl⟩,
   ⟨by norm_num, (percentDone_guards 3 1 {}).2.1 (by norm_num)⟩⟩

/-- C10: with no torrent selected the request carries the id string
`"-1"` (handed to the number-list parser, matching no torrent) and the
warning is printed; `"active"` is sent as the literal
`"recently-active"`; `"all"` sends no ids filter; an id that neither
consists of digits only nor contains `','` or `'-'` is sent as a
torrent hash string. -/
theorem addIdArg_cases :
    (addIdArg "" "" = [("ids", Val.vRange "-1")] ∧ addIdArgWarns "" "" = true) ∧
    (∀ i f, effectiveId i f = "active" → addIdArg i f = [("ids", Val.vStr "recently-active")]) ∧
    (∀ i f, effectiveId i f = "all" → addIdArg i f = []) ∧
    (∀ i f, effectiveId i f ≠ "active" → effectiveId i f ≠ "all" →
      strAllDigits (effectiveId i f) = false → strHasChar (effectiveId i f) ',' = false →
      strHasChar (effectiveId i f) '-' = false →
      addIdArg i f = [("ids", Val.vStr (effectiveId i f))]) := by
  refine ⟨⟨by decide, by decide⟩, fun i f h => ?_, fun i f h => ?_,
    fun i f h1 h2 h3 h4 h5 => ?_⟩
  · unfold addIdArg
    simp [h]
  · unfold addIdArg
    simp [h]
  · unfold addIdArg
    simp [h1, h2, h3, h4, h5]

theorem addIdArg_cases_witness :
    (effectiveId "active" "" = "active" ∧
      addIdArg "active" "" = [("ids", Val.vStr "recently-active")]) ∧
    (effectiveId "" "all" = "all" ∧ addIdArg "" "all" = []) ∧
    (effectiveId "cafebabe" "" ≠ "active" ∧ strAllDigits (effectiveId "cafebabe" "") = false ∧
      addIdArg "cafebabe" "" = [("ids", Val.vStr "cafebabe")]) :=
  ⟨⟨by decide, addIdArg_cases.2.1 "active" "" (by decide)⟩,
   ⟨by decide, addIdArg_cases.2.2.1 "" "all" (by decide)⟩,
   ⟨by decide, by decide,
    addIdArg_cases.2.2.2 "cafebabe" "" (by decide) (by decide) (by decide) (by decide) (by decide)⟩⟩

/-- The bit contributed by one parsed number in the `addDays` loop. -/
def dayContrib (day : Int) : Nat :=
  if day < 0 ∨ 7 < day then 0 else 1 <<< dayBit day

theorem daysMask_foldl_or (l : List Int) (acc : Nat) :
    l.foldl (fun acc day => if day < 0 ∨ 7 < day then acc else acc ||| (1 <<< dayBit day)) acc =
      l.foldl (fun acc day => acc ||| dayContrib day) acc := by
  induction l generalizing acc with
  | nil => rfl
  | cons x xs ih =>
    simp only [List.foldl_cons]
    rw [ih]
    congr 1
    unfold dayContrib
    by_cases hx : x < 0 ∨ 7 < x
    · simp [hx]
    · simp [hx]

theorem testBit_foldl_or (l : List Int) (acc : Nat) (b : Nat) :
    (l.foldl (fun acc day => acc ||| dayContrib day) acc).testBit b =
      (acc.testBit b || l.any fun d => (dayContrib d).testBit b) := by
  induction l generalizing acc with
  | nil => simp
  | cons x xs ih =>
    simp only [List.foldl_cons, List.any_cons]
    rw [ih]
    rw [Nat.testBit_or]
    rw [Bool.or_assoc]

theorem testBit_dayContrib (d : Int) (b : Nat) :
    (dayContrib d).testBit b = true ↔ (0 ≤ d ∧ d ≤ 7 ∧ dayBit d = b) := by
  unfold dayContrib
  by_cases hd : d < 0 ∨ 7 < d
  · rw [if_pos hd, Nat.zero_testBit]
    constructor
    · intro h
      cases h
    · rintro ⟨h1, h2, -⟩
      omega
  · rw [if_neg hd, Nat.one_shiftLeft]
    by_cases hb : dayBit d = b
    · subst hb
      rw [Nat.testBit_two_pow_self]
      constructor
      · intro _
        exact ⟨by omega, by omega, rfl⟩
      · intro _
        rfl
    · rw [Nat.testBit_two_pow_of_ne hb]
      constructor
      · intro h
        cases h
      · rintro ⟨-, -, h⟩
        exact absurd h hb

theorem daysMask_testBit (l : List Int) (b : Nat) :
    (daysMask l).testBit b = true ↔ ∃ d ∈ l, 0 ≤ d ∧ d ≤ 7 ∧ dayBit d = b := by
  unfold daysMask
  rw [daysMask_foldl_or, testBit_foldl_or]
  simp only [Nat.zero_testBit, Bool.false_or, List.any_eq_true]
  constructor
  · rintro ⟨d, hd, h⟩
    exact ⟨d, hd, (testBit_dayContrib d b).mp h⟩
  · rintro ⟨d, hd, h⟩
    exact ⟨d, hd, (testBit_dayContrib d b).mpr h⟩

/-- C8: in the days bit mask sent for the alternate-speed schedule,
bit b for 1 ≤ b ≤ 6 is set exactly when day b was listed; bit 0
(Sunday) is set exactly when 0 or 7 was listed; numbers outside 0..7
are ignored; and when the mask is zero nothing is sent (the error
message is printed instead), otherwise the mask itself is sent. -/
theorem addDays_bits (l : List Int) :
    (∀ b : Nat, 1 ≤ b → b ≤ 6 → ((daysMask l).testBit b = true ↔ (b : Int) ∈ l)) ∧
    ((daysMask l).testBit 0 = true ↔ ((0 : Int) ∈ l ∨ (7 : Int) ∈ l)) ∧
    (∀ b : Nat, 7 ≤ b → (daysMask l).testBit b = false) ∧
    (daysMask l = daysMask (l.filter fun d => 0 ≤ d ∧ d ≤ 7)) ∧
    (addDaysVal l = if daysMask l ≠ 0 then some (daysMask l) else none) := by
  refine ⟨fun b hb1 hb2 => ?_, ?_, fun b hb => ?_, ?_, rfl⟩
  · rw [daysMask_testBit]
    constructor
    · rintro ⟨d, hd, h0, h7, hbit⟩
      have : d = (b : Int) := by
        unfold dayBit at hbit
        by_cases h : d = 7
        · rw [if_pos h] at hbit
          omega
        · rw [if_neg h] at hbit
          omega
      rwa [this] at hd
    · intro hb
      refine ⟨(b : Int), hb, by omega, by omega, ?_⟩
      unfold dayBit
      rw [if_neg (by omega)]
      omega
  · rw [daysMask_testBit]
    constructor
    · rintro ⟨d, hd, h0, h7, hbit⟩
      unfold dayBit at hbit
      by_cases h : d = 7
      · right
        rwa [h] at hd
      · left
        rw [if_neg h] at hbit
        have : d = 0 := by omega
        rwa [this] at hd
    · rintro (h | h)
      · exact ⟨0, h, by omega, by omega, rfl⟩
      · exact ⟨7, h, by omega, by omega, rfl⟩
  · rw [← Bool.not_eq_true]
    rw [daysMask_testBit]
    rintro ⟨d, hd, h0, h7, hbit⟩
    unfold dayBit at hbit
    by_cases h : d = 7
    · rw [if_pos h] at hbit
      omega
    · rw [if_neg h] at hbit
      omega
  · apply Nat.eq_of_testBit_eq
    intro b
    have h1 := daysMask_testBit l b
    have h2 := daysMask_testBit (l.filter fun d => 0 ≤ d ∧ d ≤ 7) b
    rcases hb1 : (daysMask l).testBit b with _ | _ <;>
      rcases hb2 : (daysMask (l.filter fun d => 0 ≤ d ∧ d ≤ 7)).testBit b with _ | _
    · rfl
    · exfalso
      rw [hb2] at h2
      rcases h2.mp rfl with ⟨d, hd, hrange⟩
      rw [List.mem_filter] at hd
      rw [hb1] at h1
      have : ∃ d ∈ l, 0 ≤ d ∧ d ≤ 7 ∧ dayBit d = b := ⟨d, hd.1, hrange⟩
      rw [← h1] at this
      cases this
    · exfalso
      rw [hb1] at h1
      rcases h1.mp rfl with ⟨d, hd, hrange⟩
      rw [hb2] at h2
      have hmem : d ∈ l.filter fun d => 0 ≤ d ∧ d ≤ 7 := by
        rw [List.mem_filter]
        refine ⟨hd, ?_⟩
        simp only [decide_eq_true_eq]
        exact ⟨hrange.1, hrange.2.1⟩
      have : ∃ d ∈ l.filter (fun d => 0 ≤ d ∧ d ≤ 7), 0 ≤ d ∧ d ≤ 7 ∧ dayBit d = b :=
        ⟨d, hmem, hrange⟩
      rw [← h2] at this
      cases this
    · rfl

theorem addDays_bits_witness :
    ((1 : Nat) ≤ 1 ∧ (1 : Nat) ≤ 6 ∧ ((daysMask [1, 7, 9]).testBit 1 = true ↔ (1 : Int) ∈ [(1 : Int), 7, 9])) ∧
    ((daysMask [1, 7, 9]).testBit 0 = true ↔ ((0 : Int) ∈ [(1 : Int), 7, 9] ∨ (7 : Int) ∈ [(1 : Int), 7, 9])) ∧
    ((7 : Nat) ≤ 8 ∧ (daysMask [1, 7, 9]).testBit 8 = false) :=
  ⟨⟨le_refl 1, by norm_num, (addDays_bits [1, 7, 9]).1 1 (le_refl 1) (by norm_num)⟩,
   (addDays_bits [1, 7, 9]).2.1,
   ⟨by norm_num, (addDays_bits [1, 7, 9]).2.2.1 8 (by norm_num)⟩⟩

/-- C4: in a session-info response carrying both the normal and the
alternate speed-limit settings, the effective upload (resp. download)
rate shown is the alternate (turtle) limit whenever alternate limits
are enabled — whatever the normal limit's enabled flag says — else the
normal limit when that is enabled, else "Unlimited". -/
theorem printSession_effective_limits (v : SessionView)
    (altEnabled upEnabled downEnabled : Bool) (altUp altDown upLimit downLimit : Int)
    (hae : v.altSpeedEnabled = some altEnabled) (hau : v.altSpeedUp = some altUp)
    (had : v.altSpeedDown = some altDown) (hue : v.speedLimitUpEnabled = some upEnabled)
    (hul : v.speedLimitUp = some upLimit) (hde : v.speedLimitDownEnabled = some downEnabled)
    (hdl : v.speedLimitDown = some downLimit)
    (hb : v.altSpeedTimeBegin.isSome) (hte : v.altSpeedTimeEnabled.isSome)
    (hend : v.altSpeedTimeEnd.isSome) (hday : v.altSpeedTimeDay.isSome)
    (hpl : v.peerLimitGlobal.isSome) (hsr : v.seedRatioLimit.isSome)
    (hsrl : v.seedRatioLimited.isSome) :
    printSessionLimits v =
      some (effectiveLimit altEnabled altUp upEnabled upLimit,
            effectiveLimit altEnabled altDown downEnabled downLimit) ∧
    (altEnabled = true →
      effectiveLimit altEnabled altUp upEnabled upLimit = EffLimit.limited altUp ∧
      effectiveLimit altEnabled altDown downEnabled downLimit = EffLimit.limited altDown) ∧
    (altEnabled = false → upEnabled = true →
      effectiveLimit altEnabled altUp upEnabled upLimit = EffLimit.limited upLimit) ∧
    (altEnabled = false → upEnabled = false →
      effectiveLimit altEnabled altUp upEnabled upLimit = EffLimit.unlimited) ∧
    (altEnabled = false → downEnabled = true →
      effectiveLimit altEnabled altDown downEnabled downLimit = EffLimit.limited downLimit) ∧
    (altEnabled = false → downEnabled = false →
      effectiveLimit altEnabled altDown downEnabled downLimit = EffLimit.unlimited) := by
  rcases Option.isSome_iff_exists.mp hb with ⟨b0, hb0⟩
  rcases Option.isSome_iff_exists.mp hte with ⟨te0, hte0⟩
  rcases Option.isSome_iff_exists.mp hend with ⟨e0, hend0⟩
  rcases Option.isSome_iff_exists.mp hday with ⟨d0, hday0⟩
  rcases Option.isSome_iff_exists.mp hpl with ⟨p0, hpl0⟩
  rcases Option.isSome_iff_exists.mp hsr with ⟨r0, hsr0⟩
  rcases Option.isSome_iff_exists.mp hsrl with ⟨rl0, hsrl0⟩
  refine ⟨?_, fun h => ?_, fun h1 h2 => ?_, fun h1 h2 => ?_, fun h1 h2 => ?_, fun h1 h2 => ?_⟩
  · unfold printSessionLimits
    rw [hae, hau, had, hue, hul, hde, hdl, hb0, hte0, hend0, hday0, hpl0, hsr0, hsrl0]
    rfl
  · subst h
    exact ⟨rfl, rfl⟩
  · subst h1; subst h2
    rfl
  · subst h1; subst h2
    rfl
  · subst h1; subst h2
    rfl
  · subst h1; subst h2
    rfl

theorem printSession_effective_limits_witness :
    printSessionLimits
        { altSpeedDown := some 40, altSpeedEnabled := some true, altSpeedTimeBegin := some 540,
          altSpeedTimeEnabled := some false, altSpeedTimeEnd := some 1020,
          altSpeedTimeDay := some 127, altSpeedUp := some 30, peerLimitGlobal := some 200,
          speedLimitDown := some 800, speedLimitDownEnabled := some true,
          speedLimitUp := some 100, speedLimitUpEnabled := some true,
          seedRatioLimit := some 2, seedRatioLimited := some false } =
      some (effectiveLimit true 30 true 100, effectiveLimit true 40 true 800) ∧
    effectiveLimit true 30 true 100 = EffLimit.limited 30 ∧
    effectiveLimit true 40 true 800 = EffLimit.limited 40 := by
  have h := printSession_effective_limits
    { altSpeedDown := some 40, altSpeedEnabled := some true, altSpeedTimeBegin := some 540,
      altSpeedTimeEnabled := some false, altSpeedTimeEnd := some 1020,
      altSpeedTimeDay := some 127, altSpeedUp := some 30, peerLimitGlobal := some 200,
      speedLimitDown := some 800, speedLimitDownEnabled := some true,
      speedLimitUp := some 100, speedLimitUpEnabled := some true,
      seedRatioLimit := some 2, seedRatioLimited := some false }
    true true true 30 40 100 800 rfl rfl rfl rfl rfl rfl rfl rfl rfl rfl rfl rfl rfl rfl
  exact ⟨h.1, (h.2.1 rfl).1, (h.2.1 rfl).2⟩

/-- C5: the rendered status of a torrent — a stopped torrent shows
"Finished" exactly when its `isFinished` flag is present and true, else
"Stopped"; the checking states show "Will Verify" / "Verifying", with
the recheck percentage when available; an active (downloading/seeding)
torrent shows "Up & Down" with peers in both directions, "Idle" with
neither, and with only uploading peers "Uploading" while
`leftUntilDone > 0` and "Seeding" when it is zero. -/
theorem getStatusString_cases (t : TorrentView) :
    (t.status = some TR_STATUS_STOPPED → t.isFinished = some true →
      getStatusString t = "Finished") ∧
    (t.status = some TR_STATUS_STOPPED → t.isFinished ≠ some true →
      getStatusString t = "Stopped") ∧
    (t.status = some TR_STATUS_CHECK_WAIT → t.recheckProgress = none →
      getStatusString t = "Will Verify") ∧
    (∀ q : ℚ, t.status = some TR_STATUS_CHECK_WAIT → t.recheckProgress = some q →
      getStatusString t = "Will Verify (" ++ toString ⌊q * 100⌋ ++ "%)") ∧
    (t.status = some TR_STATUS_CHECK → t.recheckProgress = none →
      getStatusString t = "Verifying") ∧
    (∀ q : ℚ, t.status = some TR_STATUS_CHECK → t.recheckProgress = some q →
      getStatusString t = "Verifying (" ++ toString ⌊q * 100⌋ ++ "%)") ∧
    (∀ st : Int, st = TR_STATUS_DOWNLOAD ∨ st = TR_STATUS_SEED → t.status = some st →
      (t.peersGettingFromUs.getD 0 ≠ 0 → t.peersSendingToUs.getD 0 ≠ 0 →
        getStatusString t = "Up & Down") ∧
      (t.peersGettingFromUs.getD 0 = 0 → t.peersSendingToUs.getD 0 = 0 →
        getStatusString t = "Idle") ∧
      (t.peersGettingFromUs.getD 0 ≠ 0 → t.peersSendingToUs.getD 0 = 0 →
        (t.leftUntilDone.getD 0 > 0 → getStatusString t = "Uploading") ∧
        (t.leftUntilDone.getD 0 = 0 → getStatusString t = "Seeding"))) := by
  refine ⟨fun hs hf => ?_, fun hs hf => ?_, fun hs hr => ?_, fun q hs hr => ?_,
    fun hs hr => ?_, fun q hs hr => ?_, fun st hst hs => ?_⟩
  · unfold getStatusString
    rw [hs, hf]
    rfl
  · unfold getStatusString
    rw [hs]
    norm_num [TR_STATUS_STOPPED, TR_STATUS_DOWNLOAD_WAIT, TR_STATUS_SEED_WAIT]
    intro h
    exact absurd h hf
  · unfold getStatusString
    rw [hs, hr]
    rfl
  · unfold getStatusString
    rw [hs, hr]
    rfl
  · unfold getStatusString
    rw [hs, hr]
    rfl
  · unfold getStatusString
    rw [hs, hr]
    rfl
  · rcases hst with h | h <;> subst h <;>
      refine ⟨fun hf ht => ?_, fun hf ht => ?_, fun hf ht => ⟨fun hl => ?_, fun hl => ?_⟩⟩ <;>
      unfold getStatusString <;> rw [hs] <;>
      first
      | norm_num [TR_STATUS_DOWNLOAD, TR_STATUS_SEED, TR_STATUS_DOWNLOAD_WAIT,
          TR_STATUS_SEED_WAIT, TR_STATUS_STOPPED, TR_STATUS_CHECK_WAIT, TR_STATUS_CHECK,
          hf, ht, hl]
      | norm_num [TR_STATUS_DOWNLOAD, TR_STATUS_SEED, TR_STATUS_DOWNLOAD_WAIT,
          TR_STATUS_SEED_WAIT, TR_STATUS_STOPPED, TR_STATUS_CHECK_WAIT, TR_STATUS_CHECK,
          hf, ht]

theorem getStatusString_cases_witness :
    (({ status := some 0, isFinished := some true } : TorrentView).status =
        some TR_STATUS_STOPPED ∧
      getStatusString { status := some 0, isFinished := some true } = "Finished") ∧
    (({ status := some 4, peersGettingFromUs := some 2, peersSendingToUs := some 0,
        leftUntilDone := some 0 } : TorrentView).status = some TR_STATUS_DOWNLOAD ∧
      getStatusString ({ status := some 4, peersGettingFromUs := some 2,
                         peersSendingToUs := some 0, leftUntilDone := some 0 } : TorrentView) =
        "Seeding") := by
  constructor
  · exact ⟨rfl, (getStatusString_cases _).1 rfl rfl⟩
  · refine ⟨rfl, ?_⟩
    exact (((getStatusString_cases _).2.2.2.2.2.2 4 (Or.inl rfl) rfl).2.2 (by decide)
      (by decide)).2 (by decide)

theorem step_unblocked (ctx : Ctx) (s : PState) (c : Int) (a : String)
    (h : s.halted = false) (hb : s.broke = false) : step ctx s c a = stepGo ctx s c a := by
  unfold step
  rw [h, hb]
  simp

/-- C2: the torrent-remove request carries `delete-local-data = true`
exactly for the remove-and-delete form (option 840); the plain `-r`
form sends `delete-local-data = false`. -/
theorem torrentRemove_delete_flag (ctx : Ctx) (s : PState) (arg : String)
    (h : s.halted = false) (hb : s.broke = false) :
    step ctx s (optCode 'r') arg =
      post s ⟨"torrent-remove", none,
        [("delete-local-data", Val.vBool false)] ++ addIdArg s.id ""⟩ ∧
    step ctx s 840 arg =
      post s ⟨"torrent-remove", none,
        [("delete-local-data", Val.vBool true)] ++ addIdArg s.id ""⟩ := by
  rw [step_unblocked ctx s (optCode 'r') arg h hb, step_unblocked ctx s 840 arg h hb]
  constructor <;> rfl

theorem torrentRemove_delete_flag_witness :
    (({} : PState).halted = false) ∧ (({} : PState).broke = false) ∧
    step ctx0 {} (optCode 'r') "" =
      post {} ⟨"torrent-remove", none,
        [("delete-local-data", Val.vBool false)] ++ addIdArg "" ""⟩ ∧
    step ctx0 {} 840 "" =
      post {} ⟨"torrent-remove", none,
        [("delete-local-data", Val.vBool true)] ++ addIdArg "" ""⟩ :=
  ⟨rfl, rfl, (torrentRemove_delete_flag ctx0 {} "" rfl rfl).1,
    (torrentRemove_delete_flag ctx0 {} "" rfl rfl).2⟩

theorem onBlockReceived_preserves (hash : List Nat → Nat) (m : PieceManifest) (st : AsmState)
    (p bi : Nat) (data : List Nat) (hinv : BitFieldInv hash m st) :
    BitFieldInv hash m (onBlockReceived hash m st p bi data) := by
  intro q hq
  unfold onBlockReceived at hq ⊢
  by_cases h1 : p < m.pieceCount ∧ bi < m.blockCount p ∧ st.bits p = false
  · rw [if_pos h1] at hq ⊢
    dsimp only at hq ⊢
    by_cases h2 : (((st.pending p).getD (freshSlots m p)).set bi (some data)).all Option.isSome
    · rw [if_pos h2] at hq ⊢
      by_cases h3 :
          hash (assembleBytes (((st.pending p).getD (freshSlots m p)).set bi (some data))) =
            m.expectedHash p
      · rw [if_pos h3] at hq ⊢
        dsimp only at hq ⊢
        unfold setAt at hq ⊢
        by_cases hqp : q = p
        · rw [if_pos hqp]
          subst hqp
          exact h3
        · rw [if_neg hqp] at hq ⊢
          exact hinv q hq
      · rw [if_neg h3] at hq ⊢
        exact hinv q hq
    · rw [if_neg h2] at hq ⊢
      exact hinv q hq
  · rw [if_neg h1] at hq ⊢
    exact hinv q hq

/-- C3: after any sequence of received blocks, a set BitField bit means
the committed bytes of that piece hash to the manifest's expected
digest — a bit is never set on partial or unverified data. -/
theorem runBlocks_bitfield_inv (hash : List Nat → Nat) (m : PieceManifest)
    (evs : List (Nat × Nat × List Nat)) : BitFieldInv hash m (runBlocks hash m evs) := by
  unfold runBlocks
  have main : ∀ (l : List (Nat × Nat × List Nat)) (st : AsmState), BitFieldInv hash m st →
      BitFieldInv hash m
        (l.foldl (fun st e => onBlockReceived hash m st e.1 e.2.1 e.2.2) st) := by
    intro l
    induction l with
    | nil => exact fun st h => h
    | cons e es ih =>
      intro st h
      exact ih _ (onBlockReceived_preserves hash m st e.1 e.2.1 e.2.2 h)
  refine main evs initAsm fun p hp => ?_
  simp [initAsm] at hp

theorem runBlocks_bitfield_inv_witness :
    (runBlocks (fun l => l.foldl (· + ·) 0) ⟨1, fun _ => 1, fun _ => 5⟩
        [(0, 0, [5])]).bits 0 = true ∧
    (fun l => l.foldl (· + ·) 0)
        ((runBlocks (fun l => l.foldl (· + ·) 0) ⟨1, fun _ => 1, fun _ => 5⟩
          [(0, 0, [5])]).store 0) =
      (⟨1, fun _ => 1, fun _ => 5⟩ : PieceManifest).expectedHash 0 :=
  ⟨rfl, runBlocks_bitfield_inv (fun l => l.foldl (· + ·) 0) ⟨1, fun _ => 1, fun _ => 5⟩
    [(0, 0, [5])] 0 rfl⟩

/-- C1 (counterexample): a priority setting given with no current
torrent selected is not submitted as "session-set" — it lands in the
torrent-set bucket (posted as "torrent-set" with the no-op id `-1`).
The invocation here is `transmission-remote --bandwidth-high`. -/
theorem priority_without_torrent_not_session_set :
    sentMethods ctx0 [(700, "")] = ["torrent-set"] ∧
    "session-set" ∉ sentMethods ctx0 [(700, "")] := by
  constructor
  · rfl
  · decide

/-- C1 (amended): the command-to-RPC-method mapping.  `-a` opens a
pending torrent-add, and pending add / torrent-set / session-set
requests are posted with methods "torrent-add" / "torrent-set" /
"session-set"; remove posts "torrent-remove"; start and stop post
"torrent-start" / "torrent-stop" unless an add is pending, in which
case they instead set the add's `paused` flag; move posts
"torrent-set-location" (find does too unless an add is pending, in
which case it sets the add's download dir); verify posts
"torrent-verify"; the limit settings go to the torrent-set bucket when
a current torrent is selected and to the session-set bucket otherwise;
priority settings go to the torrent-set bucket (or the pending add) —
never to session-set. -/
theorem command_rpc_methods (ctx : Ctx) (s : PState) (arg : String)
    (h : s.halted = false) (hb : s.broke = false) :
    ((step ctx s (optCode 'a') arg).tadd = some []) ∧
    (∀ args, s.tadd = some args →
      (flushTadd s).sent = s.sent ++ [⟨"torrent-add", some TAG_TORRENT_ADD, args⟩]) ∧
    (∀ args, s.tset = some args →
      (flushTset s).sent = s.sent ++ [⟨"torrent-set", none, args ++ addIdArg s.id ""⟩]) ∧
    (∀ args, s.sset = some args →
      (flushSset s).sent = s.sent ++ [⟨"session-set", none, args⟩]) ∧
    ((step ctx s (optCode 'r') arg).sent = s.sent ++
      [⟨"torrent-remove", none,
        [("delete-local-data", Val.vBool false)] ++ addIdArg s.id ""⟩]) ∧
    (s.tadd = none → (step ctx s (optCode 's') arg).sent =
      s.sent ++ [⟨"torrent-start", none, addIdArg s.id ""⟩]) ∧
    (∀ args, s.tadd = some args → (step ctx s (optCode 's') arg).sent = s.sent ∧
      (step ctx s (optCode 's') arg).tadd = some (args ++ [("paused", Val.vBool false)])) ∧
    (s.tadd = none → (step ctx s (optCode 'S') arg).sent =
      s.sent ++ [⟨"torrent-stop", none, addIdArg s.id ""⟩]) ∧
    (∀ args, s.tadd = some args → (step ctx s (optCode 'S') arg).sent = s.sent ∧
      (step ctx s (optCode 'S') arg).tadd = some (args ++ [("paused", Val.vBool true)])) ∧
    ((step ctx s 960 arg).sent = s.sent ++
      [⟨"torrent-set-location", none,
        [("location", Val.vStr arg), ("move", Val.vBool true)] ++ addIdArg s.id ""⟩]) ∧
    (s.tadd = none → (step ctx s 961 arg).sent = s.sent ++
      [⟨"torrent-set-location", none,
        [("location", Val.vStr arg), ("move", Val.vBool false)] ++ addIdArg s.id ""⟩]) ∧
    (∀ args, s.tadd = some args →
      (step ctx s 961 arg).sent = s.sent ∧
      (step ctx s 961 arg).tadd = some (args ++ [("download-dir", Val.vStr arg)])) ∧
    (s.tset = none → (step ctx s (optCode 'v') arg).sent =
      s.sent ++ [⟨"torrent-verify", none, addIdArg s.id ""⟩]) ∧
    (s.id ≠ "" → ∀ n, numarg arg = some n →
      (step ctx s (optCode 'd') arg).tset = some ((s.tset.getD []) ++
        [("downloadLimit", Val.vInt n), ("downloadLimited", Val.vBool true)]) ∧
      (step ctx s (optCode 'd') arg).sset = s.sset ∧
      (step ctx s (optCode 'd') arg).sent = s.sent) ∧
    (s.id ≠ "" → ∀ n, numarg arg = some n →
      (step ctx s (optCode 'u') arg).tset = some ((s.tset.getD []) ++
        [("uploadLimit", Val.vInt n), ("uploadLimited", Val.vBool true)]) ∧
      (step ctx s (optCode 'u') arg).sset = s.sset) ∧
    (s.id = "" → ∀ n, numarg arg = some n →
      (step ctx s (optCode 'd') arg).sset = some ((s.sset.getD []) ++
        [("speed-limit-down", Val.vInt n), ("speed-limit-down-enabled", Val.vBool true)]) ∧
      (step ctx s (optCode 'd') arg).tset = s.tset ∧
      (step ctx s (optCode 'd') arg).sent = s.sent) ∧
    (s.id = "" → ∀ n, numarg arg = some n →
      (step ctx s (optCode 'u') arg).sset = some ((s.sset.getD []) ++
        [("speed-limit-up", Val.vInt n), ("speed-limit-up-enabled", Val.vBool true)]) ∧
      (step ctx s (optCode 'u') arg).tset = s.tset) ∧
    (s.tadd = none →
      (step ctx s 700 arg).tset =
        some ((s.tset.getD []) ++ [("bandwidthPriority", Val.vInt 1)]) ∧
      (step ctx s 700 arg).sset = s.sset ∧ (step ctx s 700 arg).sent = s.sent) ∧
    (∀ args, s.tadd = some args →
      (step ctx s 700 arg).tadd = some (args ++ [("bandwidthPriority", Val.vInt 1)])) ∧
    (s.id ≠ "" → (step ctx s 930 arg).tset =
      some ((s.tset.getD []) ++ [("peer-limit", Val.vInt (atoi arg))]) ∧
      (step ctx s 930 arg).sset = s.sset) ∧
    (s.id = "" → (step ctx s 930 arg).sset =
      some ((s.sset.getD []) ++ [("peer-limit-global", Val.vInt (atoi arg))]) ∧
      (step ctx s 930 arg).tset = s.tset) := by
  obtain ⟨i0, a0, n0, u0, d0, ss0, ts0, ta0, se0, f0, h0, b0⟩ := s
  dsimp only at h hb ⊢
  subst h
  subst hb
  refine ⟨rfl, ?_, ?_, ?_, rfl, ?_, ?_, ?_, ?_, rfl, ?_, ?_, ?_, ?_, ?_, ?_, ?_, ?_, ?_, ?_, ?_⟩
  · intro args ht
    subst ht
    rfl
  · intro args ht
    subst ht
    rfl
  · intro args ht
    subst ht
    rfl
  · intro ht
    subst ht
    rfl
  · intro args ht
    subst ht
    exact ⟨rfl, rfl⟩
  · intro ht
    subst ht
    rfl
  · intro args ht
    subst ht
    exact ⟨rfl, rfl⟩
  · intro ht
    subst ht
    rfl
  · intro args ht
    subst ht
    exact ⟨rfl, rfl⟩
  · intro ht
    subst ht
    rfl
  · intro hid n hn
    obtain ⟨cs⟩ := i0
    cases cs with
    | nil => exact absurd rfl hid
    | cons ch cl =>
      rw [show (step ctx ⟨⟨ch :: cl⟩, a0, n0, u0, d0, ss0, ts0, ta0, se0, f0, false, false⟩
          (optCode 'd') arg) =
        (match numarg arg with
          | some n =>
            addToTset ⟨⟨ch :: cl⟩, a0, n0, u0, d0, ss0, ts0, ta0, se0, f0, false, false⟩
              [("downloadLimit", Val.vInt n), ("downloadLimited", Val.vBool true)]
          | none =>
            { id := ⟨ch :: cl⟩, auth := a0, netrc := n0, useSSL := u0, debug := d0,
              sset := ss0, tset := ts0, tadd := ta0, sent := se0, fails := f0,
              halted := true, broke := false }) from rfl]
      rw [hn]
      exact ⟨rfl, rfl, rfl⟩
  · intro hid n hn
    obtain ⟨cs⟩ := i0
    cases cs with
    | nil => exact absurd rfl hid
    | cons ch cl =>
      rw [show (step ctx ⟨⟨ch :: cl⟩, a0, n0, u0, d0, ss0, ts0, ta0, se0, f0, false, false⟩
          (optCode 'u') arg) =
        (match numarg arg with
          | some n =>
            addToTset ⟨⟨ch :: cl⟩, a0, n0, u0, d0, ss0, ts0, ta0, se0, f0, false, false⟩
              [("uploadLimit", Val.vInt n), ("uploadLimited", Val.vBool true)]
          | none =>
            { id := ⟨ch :: cl⟩, auth := a0, netrc := n0, useSSL := u0, debug := d0,
              sset := ss0, tset := ts0, tadd := ta0, sent := se0, fails := f0,
              halted := true, broke := false }) from rfl]
      rw [hn]
      exact ⟨rfl, rfl⟩
  · intro hid n hn
    subst hid
    rw [show (step ctx ⟨"", a0, n0, u0, d0, ss0, ts0, ta0, se0, f0, false, false⟩
        (optCode 'd') arg) =
      (match numarg arg with
        | some n =>
          addToSset ⟨"", a0, n0, u0, d0, ss0, ts0, ta0, se0, f0, false, false⟩
            [("speed-limit-down", Val.vInt n), ("speed-limit-down-enabled", Val.vBool true)]
        | none =>
          { id := "", auth := a0, netrc := n0, useSSL := u0, debug := d0,
            sset := ss0, tset := ts0, tadd := ta0, sent := se0, fails := f0,
            halted := true, broke := false }) from rfl]
    rw [hn]
    exact ⟨rfl, rfl, rfl⟩
  · intro hid n hn
    subst hid
    rw [show (step ctx ⟨"", a0, n0, u0, d0, ss0, ts0, ta0, se0, f0, false, false⟩
        (optCode 'u') arg) =
      (match numarg arg with
        | some n =>
          addToSset ⟨"", a0, n0, u0, d0, ss0, ts0, ta0, se0, f0, false, false⟩
            [("speed-limit-up", Val.vInt n), ("speed-limit-up-enabled", Val.vBool true)]
        | none =>
          { id := "", auth := a0, netrc := n0, useSSL := u0, debug := d0,
            sset := ss0, tset := ts0, tadd := ta0, sent := se0, fails := f0,
            halted := true, broke := false }) from rfl]
    rw [hn]
    exact ⟨rfl, rfl⟩
  · intro ht
    subst ht
    exact ⟨rfl, rfl, rfl⟩
  · intro args ht
    subst ht
    rfl
  · intro hid
    obtain ⟨cs⟩ := i0
    cases cs with
    | nil => exact absurd rfl hid
    | cons ch cl => exact ⟨rfl, rfl⟩
  · intro hid
    subst hid
    exact ⟨rfl, rfl⟩

theorem command_rpc_methods_witness :
    (({} : PState).halted = false) ∧ (({} : PState).broke = false) ∧
    (({} : PState).tadd = none) ∧ (({} : PState).id = "") ∧ numarg "12" = some 12 ∧
    (step ctx0 {} (optCode 's') "").sent = [⟨"torrent-start", none, addIdArg "" ""⟩] ∧
    (step ctx0 {} (optCode 'd') "12").sset =
      some [("speed-limit-down", Val.vInt 12), ("speed-limit-down-enabled", Val.vBool true)] ∧
    (step ctx0 {} 700 "").tset = some [("bandwidthPriority", Val.vInt 1)] := by
  obtain ⟨-, -, -, -, -, c6, -, -, -, -, -, -, -, -, -, -, -, c18, -⟩ :=
    command_rpc_methods ctx0 {} "" rfl rfl
  obtain ⟨-, -, -, -, -, -, -, -, -, -, -, -, -, -, -, c16, -, -, -⟩ :=
    command_rpc_methods ctx0 {} "12" rfl rfl
  refine ⟨rfl, rfl, rfl, rfl, by decide, c6 rfl, ?_, (c18 rfl).1⟩
  exact (c16 rfl 12 (by decide)).1
